import Mathlib

/-!
# Verification of the ava-game core against its specification

Shallow embedding of the screen router (`src/app.py`), the struct-of-arrays
particle pool (`src/screens/particle_playground.py`), the scrollable toolbar
(`src/ui.py`, `ScrollToolbar`), the shape-sorter release logic
(`src/screens/shape_sorter.py`) and the bubble spawn sampler
(`src/screens/bubble_pop.py`).

Conventions:
* Python floats are modelled as `ℚ`; pixel coordinates carried by events are
  `ℤ` (pygame event positions are integers).
* Python's `int(x)` conversion (truncation toward zero) is `int_py`.
* `math.hypot(dx, dy) < r` is encoded over `ℚ`/`ℤ` as the equivalent
  square comparison (for `r > 0`): `dx^2 + dy^2 < r^2`.
-/

/-! ## src/config.py -/

def WIDTH : ℤ := 720
def HEIGHT : ℤ := 720

/-- Python `int(q)` for a rational: truncation toward zero. -/
def int_py (q : ℚ) : ℤ := if q < 0 then ⌈q⌉ else ⌊q⌋

/-! ## src/app.py — App state machine and screen routing

Only `state` (the current screen id) and `history` matter for routing;
`register`/`on_enter` hooks never mutate them.  The history list grows at the
end (`list.append` / `list.pop`). -/

structure App where
  state : String
  history : List String
deriving DecidableEq, Repr

/-- `App.go_to`: push current state to history and switch to new state. -/
def App.go_to (a : App) (s : String) : App :=
  { state := s, history := a.history ++ [a.state] }

/-- `App.go_back`: pop history and return to previous state; no-op when the
history is empty. -/
def App.go_back (a : App) : App :=
  match a.history.getLast? with
  | none => a
  | some s => { state := s, history := a.history.dropLast }

/-! ## src/screens/particle_playground.py — ParticlePool

The struct-of-arrays pool is represented by its live region: the list of the
first `count` particles (array slots beyond `count` are garbage that the code
never reads).  `emit` appends at index `count`; `update` runs the index/swap
loop below. -/

def TOOLBAR_H : ℤ := 80
def GRAVITY : ℚ := 400
def BOUNCE_DAMPING : ℚ := 3/5
def MAX_PARTICLES : ℕ := 2500

structure Particle where
  x : ℚ
  y : ℚ
  vx : ℚ
  vy : ℚ
  r : ℕ
  g : ℕ
  b : ℕ
  life : ℚ
  max_life : ℚ
  size : ℕ
deriving DecidableEq, Repr

structure ParticlePool where
  cap : ℕ
  parts : List Particle
deriving DecidableEq, Repr

def ParticlePool.count (pool : ParticlePool) : ℕ := pool.parts.length

/-- `ParticlePool.__init__(capacity)`: empty live region. -/
def ParticlePool.init (capacity : ℕ) : ParticlePool := ⟨capacity, []⟩

/-- `ParticlePool.clear`. -/
def ParticlePool.clear (pool : ParticlePool) : ParticlePool := { pool with parts := [] }

/-- The nine arguments of `ParticlePool.emit`. -/
structure EmitArgs where
  px : ℚ
  py : ℚ
  pvx : ℚ
  pvy : ℚ
  pr : ℕ
  pg : ℕ
  pb : ℕ
  plife : ℚ
  psize : ℕ
deriving DecidableEq, Repr

/-- `ParticlePool.emit`: add one particle (with `max_life := plife`), or
return `false` if the pool is full. -/
def ParticlePool.emit (pool : ParticlePool) (a : EmitArgs) : Bool × ParticlePool :=
  if pool.count ≥ pool.cap then (false, pool)
  else
    (true, { pool with parts := pool.parts ++
      [⟨a.px, a.py, a.pvx, a.pvy, a.pr, a.pg, a.pb, a.plife, a.plife, a.psize⟩] })

/-- Repeated `emit` calls, collecting the returned booleans in order. -/
def ParticlePool.emitMany (pool : ParticlePool) : List EmitArgs → List Bool × ParticlePool
  | [] => ([], pool)
  | a :: rest =>
    let r := pool.emit a
    let rs := r.2.emitMany rest
    (r.1 :: rs.1, rs.2)

/-- One surviving particle's integration and wall bounce, from the body of
`ParticlePool.update` (`vy += gravity*dt`; `x += vx*dt`; `y += vy*dt`; then
clamp-and-reflect against `0`, `w = WIDTH - 1`, `h = HEIGHT - 1`, `TOOLBAR_H`
with damping `BOUNCE_DAMPING`).  `life` has already been decremented. -/
def stepParticle (dt gravity : ℚ) (p : Particle) : Particle :=
  let vy1 := p.vy + gravity * dt
  let x1 := p.x + p.vx * dt
  let y1 := p.y + vy1 * dt
  let x2 : ℚ := if x1 < 0 then 0 else if x1 > (WIDTH : ℚ) - 1 then (WIDTH : ℚ) - 1 else x1
  let vx2 : ℚ :=
    if x1 < 0 then -p.vx * BOUNCE_DAMPING
    else if x1 > (WIDTH : ℚ) - 1 then -p.vx * BOUNCE_DAMPING
    else p.vx
  let y2 : ℚ :=
    if y1 > (HEIGHT : ℚ) - 1 then (HEIGHT : ℚ) - 1
    else if y1 < (TOOLBAR_H : ℚ) then (TOOLBAR_H : ℚ)
    else y1
  let vy2 : ℚ :=
    if y1 > (HEIGHT : ℚ) - 1 then -vy1 * BOUNCE_DAMPING
    else if y1 < (TOOLBAR_H : ℚ) then -vy1 * BOUNCE_DAMPING
    else vy1
  { p with x := x2, y := y2, vx := vx2, vy := vy2, life := p.life - dt }

/-- The `while i < n` loop of `ParticlePool.update` over the live region.
The head of the pending list is array slot `i`; a dead particle is replaced
by the last live slot (swap-remove) and reprocessed; a survivor is stepped
and the loop advances.  `fuel` is the iteration count; the loop runs exactly
`count` iterations (each one either advances `i` or decrements `n`), so the
caller passes `fuel = length` and the `0` case is never reached. -/
def updateLoop (dt gravity : ℚ) : ℕ → List Particle → List Particle
  | _, [] => []
  | 0, _ :: _ => []
  | fuel + 1, p :: rest =>
    if p.life - dt ≤ 0 then
      match rest with
      | [] => []
      | q :: rest' =>
        updateLoop dt gravity fuel ((q :: rest').getLastD q :: (q :: rest').dropLast)
    else stepParticle dt gravity p :: updateLoop dt gravity fuel rest

/-- `ParticlePool.update(dt, gravity)`. -/
def ParticlePool.update (pool : ParticlePool) (dt gravity : ℚ) : ParticlePool :=
  { pool with parts := updateLoop dt gravity pool.parts.length pool.parts }

/-- The colored rect emitted for one particle by `ParticlePool.draw`. -/
structure DrawCmd where
  cr : ℤ
  cg : ℤ
  cb : ℤ
  x : ℤ
  y : ℤ
  s : ℕ
deriving DecidableEq, Repr

/-- The per-particle body of `ParticlePool.draw`: fade the RGB channels
toward black in the last 30% of life. -/
def drawOne (p : Particle) : DrawCmd :=
  let frac : ℚ := if 0 < p.max_life then p.life / p.max_life else 1
  if frac < 3/10 then
    let f := frac / (3/10)
    { cr := int_py ((p.r : ℚ) * f), cg := int_py ((p.g : ℚ) * f),
      cb := int_py ((p.b : ℚ) * f), x := int_py p.x, y := int_py p.y, s := p.size }
  else
    { cr := (p.r : ℤ), cg := (p.g : ℤ), cb := (p.b : ℤ),
      x := int_py p.x, y := int_py p.y, s := p.size }

/-- `ParticlePool.draw(surface)`: one fill command per live particle. -/
def ParticlePool.draw (pool : ParticlePool) : List DrawCmd := pool.parts.map drawOne

/-! ## src/ui.py — ScrollToolbar -/

structure ScrollToolbar where
  left_x : ℤ
  y : ℤ
  height : ℤ
  btn_width : ℤ
  btn_gap : ℤ
  btn_count : ℕ
  scroll_x : ℚ
  dragging : Bool
  drag_start_x : ℤ
  drag_start_scroll : ℚ
  velocity : ℚ
  last_mx : ℤ
  was_drag : Bool
  max_scroll : ℚ
deriving DecidableEq, Repr

/-- `ScrollToolbar.__init__`.  Note the `+ 10` in `max_scroll`
(`max(0, total_content - visible + 10)` in the source). -/
def ScrollToolbar.init (left_x y height btn_width btn_gap : ℤ) (btn_count : ℕ) :
    ScrollToolbar :=
  let total_content : ℤ := btn_count * btn_width + ((btn_count : ℤ) - 1) * btn_gap
  let visible : ℤ := WIDTH - left_x
  { left_x := left_x, y := y, height := height, btn_width := btn_width,
    btn_gap := btn_gap, btn_count := btn_count,
    scroll_x := 0, dragging := false, drag_start_x := 0, drag_start_scroll := 0,
    velocity := 0, last_mx := 0, was_drag := false,
    max_scroll := max 0 ((total_content - visible + 10 : ℤ) : ℚ) }

/-- pygame pointer events (integer positions). -/
inductive PEvent where
  | down (mx my : ℤ)
  | motion (mx my : ℤ)
  | up (mx my : ℤ)
deriving DecidableEq, Repr

/-- `ScrollToolbar.handle_event`: returns the new toolbar state and whether
the event was consumed. -/
def ScrollToolbar.handle_event (t : ScrollToolbar) : PEvent → ScrollToolbar × Bool
  | .down mx my =>
    if t.y ≤ my ∧ my ≤ t.y + t.height ∧ mx ≥ t.left_x then
      ({ t with dragging := true, drag_start_x := mx, drag_start_scroll := t.scroll_x,
                last_mx := mx, was_drag := false, velocity := 0 }, true)
    else (t, false)
  | .motion mx _my =>
    if t.dragging then
      let dx : ℤ := t.drag_start_x - mx
      let wd : Bool := if |dx| > 8 then true else t.was_drag
      let s1 : ℚ := t.drag_start_scroll + (dx : ℚ)
      ({ t with was_drag := wd, scroll_x := max 0 (min t.max_scroll s1),
                velocity := ((t.last_mx - mx : ℤ) : ℚ) * 4, last_mx := mx }, true)
    else (t, false)
  | .up _mx _my =>
    if t.dragging then ({ t with dragging := false }, t.was_drag)
    else (t, false)

/-- `ScrollToolbar.update(dt)`: momentum with friction, offset clamped. -/
def ScrollToolbar.update (t : ScrollToolbar) (dt : ℚ) : ScrollToolbar :=
  if ¬ t.dragging ∧ |t.velocity| > 1 then
    { t with scroll_x := max 0 (min t.max_scroll (t.scroll_x + t.velocity * dt)),
             velocity := t.velocity * (9/10) }
  else t

/-- `int(x)` of button `i`'s scrolled left edge, from `get_btn_rects`. -/
def ScrollToolbar.btn_rect_x (t : ScrollToolbar) (i : ℕ) : ℤ :=
  int_py ((t.left_x : ℚ) + (i : ℚ) * ((t.btn_width + t.btn_gap : ℤ) : ℚ) - t.scroll_x)

/-- `ScrollToolbar.get_btn_at(pos)`: `-1` when the gesture was a drag, or the
position misses the strip; else the first button rect containing the point
(pygame `collidepoint` is inclusive on the left/top edge, exclusive on the
right/bottom). -/
def ScrollToolbar.get_btn_at (t : ScrollToolbar) (mx my : ℤ) : ℤ :=
  if t.was_drag then -1
  else if ¬ (t.y ≤ my ∧ my ≤ t.y + t.height) then -1
  else
    match (List.range t.btn_count).find? (fun i =>
      decide (t.btn_rect_x i ≤ mx ∧ mx < t.btn_rect_x i + t.btn_width ∧
              t.y ≤ my ∧ my < t.y + t.height)) with
    | some i => (i : ℤ)
    | none => -1

/-- One step of the toolbar's mutable life: a pointer event or an
`update(dt)` tick. -/
inductive TAction where
  | ev (e : PEvent)
  | upd (dt : ℚ)
deriving DecidableEq, Repr

def ScrollToolbar.run (t : ScrollToolbar) : List TAction → ScrollToolbar
  | [] => t
  | .ev e :: rest => ((t.handle_event e).1).run rest
  | .upd dt :: rest => (t.update dt).run rest

/-! ## src/screens/particle_playground.py — ParticlePlaygroundScreen

The mode-selection logic of `handle_event`, with the toolbar built by
`_build_toolbar` (`left_x=110, y=(80-56)//2=12, height=56, btn_width=120,
btn_gap=8, btn_count=4`) and the palette dot rects.  Side effects on the app
(`go_back`) and on the pool (`_emit_explosion`) are returned as effects. -/

structure Rect where
  x : ℤ
  y : ℤ
  w : ℤ
  h : ℤ
deriving DecidableEq, Repr

/-- pygame `Rect.collidepoint`: left/top inclusive, right/bottom exclusive. -/
def Rect.collidepoint (r : Rect) (mx my : ℤ) : Bool :=
  decide (r.x ≤ mx ∧ mx < r.x + r.w ∧ r.y ≤ my ∧ my < r.y + r.h)

/-- The toolbar as `_build_toolbar` creates it. -/
def ppToolbar0 : ScrollToolbar := ScrollToolbar.init 110 12 56 120 8 4

/-- Palette dot rects from `_build_toolbar`: `mode_end = 110 + 4*(120+8)`,
`px = mode_end + 8`, `cy = 80 // 2`, dots of radius 20 spaced 50 apart. -/
def pal_rects : List Rect :=
  (List.range 4).map (fun i =>
    { x := (110 + 4 * (120 + 8)) + 8 + (i : ℤ) * (2 * 20 + 10) - 20,
      y := 80 / 2 - 20, w := 2 * 20, h := 2 * 20 })

/-- The rect returned by `draw_back_button` (`BACK_BTN_MARGIN = 15`,
`BACK_BTN_SIZE = 80`); `back_rect` is `None` until the first draw. -/
def back_button_rect : Rect := ⟨15, 15, 80, 80⟩

structure PPScreen where
  toolbar : ScrollToolbar
  mode : ℤ
  palette : ℕ
  touching : Bool
  touch_x : ℤ
  touch_y : ℤ
  back_rect : Option Rect
deriving DecidableEq, Repr

/-- Side effects of `ParticlePlaygroundScreen.handle_event`. -/
structure PPEffects where
  went_back : Bool
  explosion_at : Option (ℤ × ℤ)
deriving DecidableEq, Repr

def PPEffects.none : PPEffects := ⟨false, Option.none⟩

/-- `ParticlePlaygroundScreen.__init__` (routing-relevant fields). -/
def PPScreen.init : PPScreen :=
  { toolbar := ppToolbar0, mode := 0, palette := 0, touching := false,
    touch_x := WIDTH / 2, touch_y := HEIGHT / 2, back_rect := Option.none }

/-- `ParticlePlaygroundScreen.handle_event`. -/
def PPScreen.handle_event (s : PPScreen) (e : PEvent) : PPScreen × PPEffects :=
  let tb := s.toolbar.handle_event e
  let s1 := { s with toolbar := tb.1 }
  if tb.2 then
    -- Toolbar consumed the event
    match e with
    | .up mx my =>
      let idx := tb.1.get_btn_at mx my
      if idx ≥ 0 then ({ s1 with mode := idx }, PPEffects.none) else (s1, PPEffects.none)
    | _ => (s1, PPEffects.none)
  else
    match e with
    | .down mx my =>
      -- Back button
      if (match s1.back_rect with
          | some r => r.collidepoint mx my
          | Option.none => false) then
        (s1, { went_back := true, explosion_at := Option.none })
      else
        -- Mode buttons (tap without drag)
        let idx := s1.toolbar.get_btn_at mx my
        if idx ≥ 0 then ({ s1 with mode := idx }, PPEffects.none)
        else
          -- Palette buttons
          match pal_rects.findIdx? (fun r => r.collidepoint mx my) with
          | some i => ({ s1 with palette := i }, PPEffects.none)
          | Option.none =>
            -- Touch in play area
            if my > TOOLBAR_H then
              let s2 := { s1 with touching := true, touch_x := mx, touch_y := my }
              if s2.mode = 3 then
                (s2, { went_back := false, explosion_at := some (mx, my) })
              else (s2, PPEffects.none)
            else (s1, PPEffects.none)
    | .motion mx my =>
      if s1.touching then
        ({ s1 with touch_x := mx, touch_y := max my TOOLBAR_H }, PPEffects.none)
      else (s1, PPEffects.none)
    | .up _ _ => ({ s1 with touching := false }, PPEffects.none)

def PPScreen.runEvents (s : PPScreen) : List PEvent → PPScreen
  | [] => s
  | e :: rest => ((s.handle_event e).1).runEvents rest

/-! ## src/screens/shape_sorter.py — release (MOUSEBUTTONUP) logic -/

def SNAP_DIST : ℚ := 55

structure Shape where
  x : ℚ
  y : ℚ
  start_x : ℚ
  start_y : ℚ
  target_x : ℚ
  target_y : ℚ
  placed : Bool
  dragging : Bool
  snapping : Bool
  snap_anim : ℚ
deriving DecidableEq, Repr

/-- The MOUSEBUTTONUP branch of `ShapeSorterScreen.handle_event` applied to
the dragged shape: `dist = hypot(x - target_x, y - target_y)`; snap exactly
to the target when `dist < SNAP_DIST`, else stay where released.  The
distance comparison is encoded squared (`hypot d1 d2 < r ↔ d1² + d2² < r²`
for `r > 0`). -/
def releaseShape (sh : Shape) : Shape :=
  let sh1 := { sh with dragging := false }
  if (sh1.x - sh1.target_x) ^ 2 + (sh1.y - sh1.target_y) ^ 2 < SNAP_DIST ^ 2 then
    { sh1 with x := sh1.target_x, y := sh1.target_y, placed := true,
               snapping := true, snap_anim := 0 }
  else sh1

/-! ## src/screens/bubble_pop.py — spawn_bubble -/

structure Bubble where
  x : ℤ
  y : ℤ
  radius : ℤ
deriving DecidableEq, Repr

/-- The overlap test of `spawn_bubble`:
`sqrt((x-bx)² + (y-by)²) < radius + b.radius + 5`, encoded over `ℤ` as
`0 < t ∧ (x-bx)² + (y-by)² < t²` with `t = radius + b.radius + 5`. -/
def overlapsBubble (radius x y : ℤ) (b : Bubble) : Bool :=
  decide (0 < radius + b.radius + 5 ∧
          (x - b.x) ^ 2 + (y - b.y) ^ 2 < (radius + b.radius + 5) ^ 2)

def RETRY_BUDGET : ℕ := 50

/-- The `for _ in range(50)` rejection-sampling loop of `spawn_bubble`:
candidate `k` is `cand k`; stop at the first candidate overlapping no
existing bubble; when fuel runs out, keep the current (last) candidate
regardless.  Called with `fuel = RETRY_BUDGET - 1` so candidates
`0 .. RETRY_BUDGET - 1` are consulted. -/
def spawn_go (bubbles : List Bubble) (radius : ℤ) (cand : ℕ → ℤ × ℤ) :
    ℕ → ℕ → ℤ × ℤ
  | k, 0 => cand k
  | k, fuel + 1 =>
    if bubbles.any (fun b => overlapsBubble radius (cand k).1 (cand k).2 b) then
      spawn_go bubbles radius cand (k + 1) fuel
    else cand k

/-- `spawn_bubble`'s placement: the position picked from the sample stream. -/
def spawn_bubble_pos (bubbles : List Bubble) (radius : ℤ) (cand : ℕ → ℤ × ℤ) :
    ℤ × ℤ :=
  spawn_go bubbles radius cand 0 (RETRY_BUDGET - 1)

/-- The region `randint(radius+10, WIDTH-radius-10) × randint(radius+10,
HEIGHT-radius-10)` samples from (randint bounds are inclusive). -/
def in_margin (radius : ℤ) (c : ℤ × ℤ) : Prop :=
  radius + 10 ≤ c.1 ∧ c.1 ≤ WIDTH - radius - 10 ∧
  radius + 10 ≤ c.2 ∧ c.2 ≤ HEIGHT - radius - 10

instance (radius : ℤ) (c : ℤ × ℤ) : Decidable (in_margin radius c) := by
  unfold in_margin; infer_instance

/-! ## Helper lemmas -/

theorem getLast?_append_singleton {α : Type} (l : List α) (x : α) :
    (l ++ [x]).getLast? = some x := by
  simp

theorem dropLast_append_singleton {α : Type} (l : List α) (x : α) :
    (l ++ [x]).dropLast = l := by
  simp

/-! ## C1 — Router stack discipline -/

/-- **C1.** `go_to` pushes the pre-transition current state and switches;
`go_back` on a non-empty history pops the most recently pushed id and makes
it current (so `go_back ∘ go_to` is the identity on the router state);
`go_back` on an empty history is a no-op; and the A/B end-to-end scenario:
from root `A`, `go_to B` then `go_back` ends at `A` with empty history. -/
theorem C1_router_stack_discipline :
    (∀ (a : App) (s : String),
       (a.go_to s).state = s ∧ (a.go_to s).history = a.history ++ [a.state]) ∧
    (∀ (a : App) (s : String), (a.go_to s).go_back = a) ∧
    (∀ (a : App) (h0 : List String) (s : String),
       a.history = h0 ++ [s] → a.go_back = ⟨s, h0⟩) ∧
    (∀ a : App, a.history = [] → a.go_back = a) ∧
    ((App.mk "A" []).go_to "B").go_back = App.mk "A" [] := by
  refine ⟨fun a s => ⟨rfl, rfl⟩, fun a s => ?_, fun a h0 s h => ?_, fun a h => ?_, ?_⟩
  · simp [App.go_to, App.go_back, getLast?_append_singleton, dropLast_append_singleton]
  · cases a with
    | mk st hist =>
      cases h
      simp [App.go_back, getLast?_append_singleton, dropLast_append_singleton]
  · cases a with
    | mk st hist =>
      cases h
      simp [App.go_back]
  · simp [App.go_to, App.go_back]

/-- Witness for C1 at concrete inputs: popping `⟨"B", ["A"]⟩` yields
`⟨"A", []⟩` (history `["A"] = [] ++ ["A"]`), and `go_back` from an empty
history changes nothing. -/
theorem C1_router_stack_discipline_witness :
    (App.mk "B" ["A"]).go_back = App.mk "A" [] ∧
    (App.mk "X" []).go_back = App.mk "X" [] :=
  ⟨C1_router_stack_discipline.2.2.1 (App.mk "B" ["A"]) [] "A" rfl,
   C1_router_stack_discipline.2.2.2.1 (App.mk "X" []) rfl⟩

/-! ## C2 — Particle pool backpressure -/

theorem emit_count (pool : ParticlePool) (a : EmitArgs) :
    (pool.emit a).2.count =
      (if pool.count ≥ pool.cap then pool.count else pool.count + 1) ∧
    (pool.emit a).2.cap = pool.cap := by
  unfold ParticlePool.emit
  split
  · simp_all
  · simp_all [ParticlePool.count]

theorem emitMany_spec (rest : List EmitArgs) :
    ∀ pool : ParticlePool, pool.count ≤ pool.cap →
      (pool.emitMany rest).1 =
        List.replicate (min rest.length (pool.cap - pool.count)) true ++
        List.replicate (rest.length - (pool.cap - pool.count)) false ∧
      (pool.emitMany rest).2.count = min pool.cap (pool.count + rest.length) := by
  induction rest with
  | nil =>
    intro pool h
    constructor
    · simp [ParticlePool.emitMany]
    · simp [ParticlePool.emitMany]
      omega
  | cons a rest ih =>
    intro pool h
    by_cases hfull : pool.count ≥ pool.cap
    · have hemit : pool.emit a = (false, pool) := by
        unfold ParticlePool.emit
        simp [hfull]
      have hrec := ih pool h
      constructor
      · show (pool.emitMany (a :: rest)).1 = _
        unfold ParticlePool.emitMany
        rw [hemit]
        simp only
        rw [hrec.1]
        have hz : pool.cap - pool.count = 0 := by omega
        simp [hz, List.replicate_succ]
      · show (pool.emitMany (a :: rest)).2.count = _
        unfold ParticlePool.emitMany
        rw [hemit]
        simp only
        rw [hrec.2]
        omega
    · have hlt : pool.count < pool.cap := by omega
      set pool' : ParticlePool :=
        { pool with parts := pool.parts ++
          [⟨a.px, a.py, a.pvx, a.pvy, a.pr, a.pg, a.pb, a.plife, a.plife, a.psize⟩] }
        with hpool'
      have hemit : pool.emit a = (true, pool') := by
        unfold ParticlePool.emit
        simp [hfull, hpool']
      have hcount' : pool'.count = pool.count + 1 := by
        simp [hpool', ParticlePool.count]
      have hcap' : pool'.cap = pool.cap := rfl
      have hrec := ih pool' (by omega)
      constructor
      · show (pool.emitMany (a :: rest)).1 = _
        unfold ParticlePool.emitMany
        rw [hemit]
        simp only
        rw [hrec.1, hcount', hcap']
        have h1 : min (rest.length + 1) (pool.cap - pool.count) =
            min rest.length (pool.cap - (pool.count + 1)) + 1 := by omega
        have h2 : rest.length + 1 - (pool.cap - pool.count) =
            rest.length - (pool.cap - (pool.count + 1)) := by omega
        simp only [List.length_cons, h1, h2, List.replicate_succ]
        rfl
      · show (pool.emitMany (a :: rest)).2.count = _
        unfold ParticlePool.emitMany
        rw [hemit]
        simp only
        rw [hrec.2, hcount', hcap']
        simp only [List.length_cons]
        omega

/-- **C2.** From an empty pool of capacity `C`, `C + 1` calls to `emit` with
no intervening `update` return `true` for the first `C` calls and `false`
exactly once, on the last call; the count is then exactly `C`.  Moreover a
single `emit` never grows a pool beyond its capacity (and never throws: it
is a total function returning a boolean). -/
theorem C2_emit_backpressure (C : ℕ) (args : List EmitArgs)
    (hlen : args.length = C + 1) :
    ((ParticlePool.init C).emitMany args).1 = List.replicate C true ++ [false] ∧
    ((ParticlePool.init C).emitMany args).2.count = C ∧
    (∀ (pool : ParticlePool) (a : EmitArgs),
       pool.count ≤ pool.cap → (pool.emit a).2.count ≤ pool.cap) := by
  have h0 : (ParticlePool.init C).count = 0 := rfl
  have hcap : (ParticlePool.init C).cap = C := rfl
  have hspec := emitMany_spec args (ParticlePool.init C) (by omega)
  refine ⟨?_, ?_, ?_⟩
  · rw [hspec.1, h0, hcap, hlen]
    have : min (C + 1) (C - 0) = C := by omega
    rw [this]
    have : C + 1 - (C - 0) = 1 := by omega
    rw [this]
    rfl
  · rw [hspec.2, h0, hcap, hlen]
    omega
  · intro pool a h
    rcases emit_count pool a with ⟨h1, _⟩
    rw [h1]
    split <;> omega

/-- Witness for C2: capacity 2, three identical `emit` calls give
`[true, true, false]` and a final count of 2. -/
theorem C2_emit_backpressure_witness :
    ((ParticlePool.init 2).emitMany
        (List.replicate 3 ⟨360, 400, 0, 0, 255, 255, 255, 1, 2⟩)).1 =
      [true, true, false] ∧
    ((ParticlePool.init 2).emitMany
        (List.replicate 3 ⟨360, 400, 0, 0, 255, 255, 255, 1, 2⟩)).2.count = 2 := by
  have h := C2_emit_backpressure 2
      (List.replicate 3 ⟨360, 400, 0, 0, 255, 255, 255, 1, 2⟩) (by simp)
  exact ⟨h.1.trans (by simp [List.replicate_succ]), h.2.1⟩

/-! ## C5 / C6 — ParticlePool.update invariants -/

theorem stepParticle_life (dt gravity : ℚ) (p : Particle) :
    (stepParticle dt gravity p).life = p.life - dt := rfl

theorem stepParticle_x_bounds (dt gravity : ℚ) (p : Particle) :
    0 ≤ (stepParticle dt gravity p).x ∧
    (stepParticle dt gravity p).x ≤ (WIDTH : ℚ) - 1 := by
  unfold stepParticle
  dsimp only
  split_ifs with h1 h2
  · norm_num [WIDTH]
  · norm_num [WIDTH]
  · constructor <;> [linarith; linarith]

theorem stepParticle_y_bounds (dt gravity : ℚ) (p : Particle) :
    (TOOLBAR_H : ℚ) ≤ (stepParticle dt gravity p).y ∧
    (stepParticle dt gravity p).y ≤ (HEIGHT : ℚ) - 1 := by
  unfold stepParticle
  dsimp only
  split_ifs with h1 h2
  · norm_num [HEIGHT, TOOLBAR_H]
  · norm_num [HEIGHT, TOOLBAR_H]
  · constructor <;> [linarith; linarith]

/-- Every particle surviving the update loop is some pre-state particle that
passed the life check and went through `stepParticle` (the swap-removed slot
is re-processed, never skipped). -/
theorem updateLoop_mem (dt gravity : ℚ) :
    ∀ (fuel : ℕ) (l : List Particle) (p : Particle), p ∈ updateLoop dt gravity fuel l →
      ∃ p0 : Particle, 0 < p0.life - dt ∧ p = stepParticle dt gravity p0 := by
  intro fuel
  induction fuel with
  | zero =>
    intro l p hp
    cases l <;> simp [updateLoop] at hp
  | succ f ih =>
    intro l p hp
    cases l with
    | nil => simp [updateLoop] at hp
    | cons q rest =>
      simp only [updateLoop] at hp
      by_cases hl : q.life - dt ≤ 0
      · rw [if_pos hl] at hp
        cases rest with
        | nil => simp at hp
        | cons q2 rest' => exact ih _ p hp
      · rw [if_neg hl] at hp
        rcases List.mem_cons.mp hp with h | h
        · exact ⟨q, by linarith, h⟩
        · exact ih _ p h

/-- The particle produced by `emit(360, 400, 0, 0, 255, 255, 255, 1.0, 2)`. -/
def pInit : Particle := ⟨360, 400, 0, 0, 255, 255, 255, 1, 1, 2⟩

/-- A capacity-5 pool that emitted five particles with `lifetime = 1.0`. -/
def pool5 : ParticlePool :=
  ((ParticlePool.init 5).emitMany
    (List.replicate 5 ⟨360, 400, 0, 0, 255, 255, 255, 1, 2⟩)).2

theorem pool5_parts : pool5.parts = List.replicate 5 pInit := by
  norm_num [pool5, ParticlePool.emitMany, ParticlePool.emit, ParticlePool.count,
    ParticlePool.init, pInit, List.replicate_succ]

/-- **C5.** After any `ParticlePool.update(dt, g)`, every particle still in
the live region has `life > 0` (the swap-with-last removal re-processes the
swapped-in slot, so no expired particle survives); and the end-to-end
scenario: a capacity-5 pool holding 5 particles of lifetime 1.0, after two
`update(0.5, GRAVITY)` calls, has `count = 0` (life reaches exactly 0, and
`life ≤ 0` means removal). -/
theorem C5_no_zombie_particles :
    (∀ (dt gravity : ℚ) (pool : ParticlePool),
       ∀ p ∈ (pool.update dt gravity).parts, 0 < p.life) ∧
    pool5.count = 5 ∧
    ((pool5.update (1/2) GRAVITY).update (1/2) GRAVITY).count = 0 := by
  refine ⟨?_, ?_, ?_⟩
  · intro dt gravity pool p hp
    obtain ⟨p0, h0, rfl⟩ := updateLoop_mem dt gravity _ _ p hp
    rw [stepParticle_life]
    linarith
  · simp [ParticlePool.count, pool5_parts]
  · have h1 : (pool5.update (1/2) GRAVITY).parts =
        List.replicate 5 (stepParticle (1/2) GRAVITY pInit) := by
      rw [ParticlePool.update, pool5_parts]
      norm_num [List.replicate_succ, updateLoop, pInit]
    have hstep : stepParticle (1/2) GRAVITY pInit =
        ⟨360, 500, 0, 200, 255, 255, 255, 1/2, 1, 2⟩ := by
      norm_num [stepParticle, pInit, GRAVITY, WIDTH, HEIGHT, TOOLBAR_H]
    rw [ParticlePool.count, ParticlePool.update, h1, hstep]
    norm_num [List.replicate_succ, updateLoop, List.getLastD, List.dropLast]

/-- Witness for C5: a surviving particle of a concrete one-particle pool
after `update(0.5, GRAVITY)` has positive remaining life. -/
theorem C5_no_zombie_particles_witness :
    0 < (stepParticle (1/2) GRAVITY pInit).life := by
  apply C5_no_zombie_particles.1 (1/2) GRAVITY ⟨5, [pInit]⟩
  show stepParticle (1/2) GRAVITY pInit ∈ updateLoop (1/2) GRAVITY 1 [pInit]
  norm_num [updateLoop, pInit]

/-- **C6.** The damping factor is a constant `< 1`; after `update` no
particle lies beyond any boundary (`x ∈ [0, WIDTH-1]`,
`y ∈ [TOOLBAR_H, HEIGHT-1]`); and for a surviving particle whose integrated
position crosses a boundary, the position is set exactly to that boundary
and the boundary-normal velocity component is sign-flipped and scaled by the
damping factor (all four walls). -/
theorem C6_clamp_then_reflect (dt gravity : ℚ) (pool : ParticlePool) (p : Particle) :
    BOUNCE_DAMPING < 1 ∧
    (∀ q ∈ (pool.update dt gravity).parts,
       0 ≤ q.x ∧ q.x ≤ (WIDTH : ℚ) - 1 ∧
       (TOOLBAR_H : ℚ) ≤ q.y ∧ q.y ≤ (HEIGHT : ℚ) - 1) ∧
    (p.x + p.vx * dt < 0 →
       (stepParticle dt gravity p).x = 0 ∧
       (stepParticle dt gravity p).vx = -p.vx * BOUNCE_DAMPING) ∧
    ((WIDTH : ℚ) - 1 < p.x + p.vx * dt →
       (stepParticle dt gravity p).x = (WIDTH : ℚ) - 1 ∧
       (stepParticle dt gravity p).vx = -p.vx * BOUNCE_DAMPING) ∧
    ((HEIGHT : ℚ) - 1 < p.y + (p.vy + gravity * dt) * dt →
       (stepParticle dt gravity p).y = (HEIGHT : ℚ) - 1 ∧
       (stepParticle dt gravity p).vy = -(p.vy + gravity * dt) * BOUNCE_DAMPING) ∧
    (p.y + (p.vy + gravity * dt) * dt < (TOOLBAR_H : ℚ) →
       (stepParticle dt gravity p).y = (TOOLBAR_H : ℚ) ∧
       (stepParticle dt gravity p).vy = -(p.vy + gravity * dt) * BOUNCE_DAMPING) := by
  have hw : (0 : ℚ) ≤ (WIDTH : ℚ) - 1 := by norm_num [WIDTH]
  have hth : (TOOLBAR_H : ℚ) ≤ (HEIGHT : ℚ) - 1 := by norm_num [TOOLBAR_H, HEIGHT]
  refine ⟨by norm_num [BOUNCE_DAMPING], ?_, ?_, ?_, ?_, ?_⟩
  · intro q hq
    obtain ⟨p0, _, rfl⟩ := updateLoop_mem dt gravity _ _ q hq
    exact ⟨(stepParticle_x_bounds dt gravity p0).1, (stepParticle_x_bounds dt gravity p0).2,
           (stepParticle_y_bounds dt gravity p0).1, (stepParticle_y_bounds dt gravity p0).2⟩
  · intro h
    unfold stepParticle
    dsimp only
    rw [if_pos h, if_pos h]
    exact ⟨rfl, rfl⟩
  · intro h
    have h0 : ¬ (p.x + p.vx * dt < 0) := by linarith
    unfold stepParticle
    dsimp only
    rw [if_neg h0, if_neg h0, if_pos h, if_pos h]
    exact ⟨rfl, rfl⟩
  · intro h
    unfold stepParticle
    dsimp only
    rw [if_pos h, if_pos h]
    exact ⟨rfl, rfl⟩
  · intro h
    have h0 : ¬ ((HEIGHT : ℚ) - 1 < p.y + (p.vy + gravity * dt) * dt) := by linarith
    unfold stepParticle
    dsimp only
    rw [if_neg h0, if_neg h0, if_pos h, if_pos h]
    exact ⟨rfl, rfl⟩

/-- Witness for C6: a particle at `x = 5` with `vx = -10` integrated over
`dt = 1` crosses the left wall; its position is clamped to `0` and its
velocity becomes `-(-10) * 0.6 = 6`. -/
theorem C6_clamp_then_reflect_witness :
    (5 : ℚ) + (-10) * 1 < 0 ∧
    (stepParticle 1 0 ⟨5, 400, -10, 0, 0, 0, 0, 9, 9, 2⟩).x = 0 ∧
    (stepParticle 1 0 ⟨5, 400, -10, 0, 0, 0, 0, 9, 9, 2⟩).vx = 6 := by
  have h := (C6_clamp_then_reflect 1 0 (ParticlePool.init 0)
      ⟨5, 400, -10, 0, 0, 0, 0, 9, 9, 2⟩).2.2.1 (by norm_num)
  exact ⟨by norm_num, h.1, h.2.trans (by norm_num [BOUNCE_DAMPING])⟩

/-! ## C9 — exact fade policy in ParticlePool.draw -/

/-- **C9.** Every live particle contributes its `drawOne` command to
`ParticlePool.draw`; when its remaining life fraction `life / max_life` is
below `0.3`, each RGB channel is scaled by `fraction / 0.3` (toward black,
then converted to an `int`); when the fraction is at least `0.3`, the
channels are rendered unscaled. -/
theorem C9_fade_policy (pool : ParticlePool) (p : Particle)
    (hp : p ∈ pool.parts) (hml : 0 < p.max_life) :
    drawOne p ∈ pool.draw ∧
    (p.life / p.max_life < 3/10 →
       (drawOne p).cr = int_py ((p.r : ℚ) * ((p.life / p.max_life) / (3/10))) ∧
       (drawOne p).cg = int_py ((p.g : ℚ) * ((p.life / p.max_life) / (3/10))) ∧
       (drawOne p).cb = int_py ((p.b : ℚ) * ((p.life / p.max_life) / (3/10)))) ∧
    (3/10 ≤ p.life / p.max_life →
       (drawOne p).cr = (p.r : ℤ) ∧ (drawOne p).cg = (p.g : ℤ) ∧
       (drawOne p).cb = (p.b : ℤ)) := by
  refine ⟨List.mem_map_of_mem drawOne hp, ?_, ?_⟩
  · intro h
    unfold drawOne
    dsimp only
    rw [if_pos hml, if_pos h]
    exact ⟨rfl, rfl, rfl⟩
  · intro h
    have h' : ¬ (p.life / p.max_life < 3/10) := not_lt.mpr h
    unfold drawOne
    dsimp only
    rw [if_pos hml, if_neg h']
    exact ⟨rfl, rfl, rfl⟩

/-- Witness for C9: a particle with `life = 0.1`, `max_life = 1`,
`r = 100` draws with `cr = int(100 * ((0.1/1) / 0.3)) = int(100/3) = 33`. -/
theorem C9_fade_policy_witness :
    (drawOne ⟨10, 90, 0, 0, 100, 200, 50, 1/10, 1, 2⟩).cr = 33 := by
  have h := (C9_fade_policy ⟨5, [⟨10, 90, 0, 0, 100, 200, 50, 1/10, 1, 2⟩]⟩
      ⟨10, 90, 0, 0, 100, 200, 50, 1/10, 1, 2⟩ (by simp) (by norm_num)).2.1
      (by norm_num)
  rw [h.1]
  norm_num [int_py]

/-! ## C4 — toolbar scroll clamping and the max_scroll formula -/

/-- The clamp invariant of the scroll offset. -/
def tbInv (t : ScrollToolbar) : Prop :=
  0 ≤ t.scroll_x ∧ t.scroll_x ≤ t.max_scroll

theorem handle_event_const_fields (t : ScrollToolbar) (e : PEvent) :
    (t.handle_event e).1.left_x = t.left_x ∧ (t.handle_event e).1.y = t.y ∧
    (t.handle_event e).1.height = t.height ∧
    (t.handle_event e).1.btn_width = t.btn_width ∧
    (t.handle_event e).1.btn_gap = t.btn_gap ∧
    (t.handle_event e).1.btn_count = t.btn_count ∧
    (t.handle_event e).1.max_scroll = t.max_scroll := by
  cases e <;> simp only [ScrollToolbar.handle_event] <;> split_ifs <;>
    exact ⟨rfl, rfl, rfl, rfl, rfl, rfl, rfl⟩

theorem update_const_fields (t : ScrollToolbar) (dt : ℚ) :
    (t.update dt).left_x = t.left_x ∧ (t.update dt).y = t.y ∧
    (t.update dt).height = t.height ∧ (t.update dt).btn_width = t.btn_width ∧
    (t.update dt).btn_gap = t.btn_gap ∧ (t.update dt).btn_count = t.btn_count ∧
    (t.update dt).max_scroll = t.max_scroll := by
  simp only [ScrollToolbar.update]
  split_ifs <;> exact ⟨rfl, rfl, rfl, rfl, rfl, rfl, rfl⟩

theorem tbInv_handle_event (t : ScrollToolbar) (e : PEvent) (h : tbInv t) :
    tbInv (t.handle_event e).1 := by
  have hm : 0 ≤ t.max_scroll := le_trans h.1 h.2
  cases e <;> simp only [ScrollToolbar.handle_event] <;> split_ifs <;>
    first
      | exact h
      | exact ⟨le_max_left _ _, max_le hm (min_le_left _ _)⟩

theorem tbInv_update (t : ScrollToolbar) (dt : ℚ) (h : tbInv t) :
    tbInv (t.update dt) := by
  have hm : 0 ≤ t.max_scroll := le_trans h.1 h.2
  simp only [ScrollToolbar.update]
  split_ifs
  · exact ⟨le_max_left _ _, max_le hm (min_le_left _ _)⟩
  · exact h

theorem tbInv_run (acts : List TAction) :
    ∀ t : ScrollToolbar, tbInv t → tbInv (t.run acts) := by
  induction acts with
  | nil => intro t h; exact h
  | cons a rest ih =>
    intro t h
    cases a with
    | ev e => exact ih _ (tbInv_handle_event t e h)
    | upd dt => exact ih _ (tbInv_update t dt h)

theorem max_scroll_run (acts : List TAction) :
    ∀ t : ScrollToolbar, (t.run acts).max_scroll = t.max_scroll := by
  induction acts with
  | nil => intro t; rfl
  | cons a rest ih =>
    intro t
    cases a with
    | ev e =>
      exact (ih _).trans (handle_event_const_fields t e).2.2.2.2.2.2
    | upd dt =>
      exact (ih _).trans (update_const_fields t dt).2.2.2.2.2.2

/-- The claimed formula: `max(0, totalContentWidth - visibleWidth)` where
`totalContentWidth = btn_count*btn_width + (btn_count-1)*btn_gap` and
`visibleWidth = WIDTH - left_x`.  (This is what the spec states; the source
adds 10.) -/
def claimed_max_scroll (left_x btn_width btn_gap : ℤ) (btn_count : ℕ) : ℚ :=
  max 0 (((btn_count * btn_width + ((btn_count : ℤ) - 1) * btn_gap)
            - (WIDTH - left_x) : ℤ) : ℚ)

/-- **C4 counterexample.** For the weather-toy toolbar
(`left_x=110, btn_width=140, btn_gap=6, btn_count=5`) the code's
`max_scroll` is `max(0, 724 - 610 + 10) = 124`, not the claimed
`max(0, 724 - 610) = 114`. -/
theorem C4_max_scroll_counterexample :
    (ScrollToolbar.init 110 10 58 140 6 5).max_scroll ≠
      claimed_max_scroll 110 140 6 5 := by
  have h1 : (ScrollToolbar.init 110 10 58 140 6 5).max_scroll = (124 : ℚ) := by
    show max 0 ((((5 : ℕ) * 140 + ((5 : ℕ) - 1 : ℤ) * 6 - (WIDTH - 110) + 10 : ℤ)) : ℚ) = 124
    norm_num [WIDTH]
  have h2 : claimed_max_scroll 110 140 6 5 = (114 : ℚ) := by
    show max 0 ((((5 : ℕ) * 140 + ((5 : ℕ) - 1 : ℤ) * 6 - (WIDTH - 110) : ℤ)) : ℚ) = 114
    norm_num [WIDTH]
  rw [h1, h2]
  norm_num

/-- **C4 (amended).** At all times after construction — through any sequence
of `handle_event` and `update` calls — `scroll_x ∈ [0, max_scroll]`, and
`max_scroll = max(0, totalContentWidth - visibleWidth + 10)` (the source
keeps a 10-pixel extra scroll margin). -/
theorem C4_scroll_clamped (left_x y height btn_width btn_gap : ℤ) (btn_count : ℕ)
    (acts : List TAction) :
    0 ≤ ((ScrollToolbar.init left_x y height btn_width btn_gap btn_count).run acts).scroll_x ∧
    ((ScrollToolbar.init left_x y height btn_width btn_gap btn_count).run acts).scroll_x ≤
      ((ScrollToolbar.init left_x y height btn_width btn_gap btn_count).run acts).max_scroll ∧
    ((ScrollToolbar.init left_x y height btn_width btn_gap btn_count).run acts).max_scroll =
      max 0 (((btn_count * btn_width + ((btn_count : ℤ) - 1) * btn_gap)
                - (WIDTH - left_x) + 10 : ℤ) : ℚ) := by
  have h0 : tbInv (ScrollToolbar.init left_x y height btn_width btn_gap btn_count) :=
    ⟨le_refl 0, le_max_left _ _⟩
  have h := tbInv_run acts _ h0
  exact ⟨h.1, h.2, (max_scroll_run acts _).trans rfl⟩

/-! ## C10 — the drag flag outlives the pointer session -/

theorem get_btn_at_of_was_drag (t : ScrollToolbar) (h : t.was_drag = true)
    (mx my : ℤ) : t.get_btn_at mx my = -1 := by
  simp [ScrollToolbar.get_btn_at, h]

theorem was_drag_handle_event (t : ScrollToolbar) (e : PEvent)
    (hwd : t.was_drag = true)
    (h : ∀ mx my : ℤ, e = PEvent.down mx my →
         ¬ (t.y ≤ my ∧ my ≤ t.y + t.height ∧ mx ≥ t.left_x)) :
    (t.handle_event e).1.was_drag = true := by
  cases e with
  | down mx my =>
    simp only [ScrollToolbar.handle_event]
    rw [if_neg (h mx my rfl)]
    exact hwd
  | motion mx my =>
    simp only [ScrollToolbar.handle_event]
    split_ifs <;> simp [hwd]
  | up mx my =>
    simp only [ScrollToolbar.handle_event]
    split_ifs <;> simp [hwd]

theorem was_drag_update (t : ScrollToolbar) (dt : ℚ) :
    (t.update dt).was_drag = t.was_drag := by
  simp only [ScrollToolbar.update]
  split_ifs <;> rfl

/-- **C10.** Once a gesture has been flagged as a drag (`was_drag = true`),
the flag survives every later pointer event and momentum update that is not
a pointer-down landing inside the toolbar band, and while it is set
`get_btn_at` answers `-1` for every position — including positions directly
over a button. -/
theorem C10_drag_flag_persists (acts : List TAction) :
    ∀ t : ScrollToolbar, t.was_drag = true →
      (∀ mx my : ℤ, TAction.ev (PEvent.down mx my) ∈ acts →
         ¬ (t.y ≤ my ∧ my ≤ t.y + t.height ∧ mx ≥ t.left_x)) →
      (t.run acts).was_drag = true ∧
      ∀ mx my : ℤ, (t.run acts).get_btn_at mx my = -1 := by
  induction acts with
  | nil =>
    intro t hwd _
    exact ⟨hwd, fun mx my => get_btn_at_of_was_drag t hwd mx my⟩
  | cons a rest ih =>
    intro t hwd hnd
    cases a with
    | ev e =>
      have hgeom := handle_event_const_fields t e
      have hwd' : (t.handle_event e).1.was_drag = true := by
        apply was_drag_handle_event t e hwd
        intro mx my he
        exact hnd mx my (by rw [he]; exact List.mem_cons_self _ _)
      refine ih _ hwd' ?_
      intro mx my hmem
      rw [hgeom.2.1, hgeom.2.2.1, hgeom.1]
      exact hnd mx my (List.mem_cons_of_mem _ hmem)
    | upd dt =>
      have hgeom := update_const_fields t dt
      have hwd' : (t.update dt).was_drag = true := (was_drag_update t dt).trans hwd
      refine ih _ hwd' ?_
      intro mx my hmem
      rw [hgeom.2.1, hgeom.2.2.1, hgeom.1]
      exact hnd mx my (List.mem_cons_of_mem _ hmem)

/-- Witness for C10: a flagged toolbar run through a motion, a pointer-up
and a momentum update (no pointer-down) keeps the flag, and `get_btn_at`
still answers `-1` directly over button 1 at `(250, 40)`. -/
theorem C10_drag_flag_persists_witness :
    (({ ScrollToolbar.init 110 12 56 120 8 4 with was_drag := true }).run
        [TAction.ev (PEvent.motion 300 40), TAction.ev (PEvent.up 300 40),
         TAction.upd 1]).was_drag = true ∧
    (({ ScrollToolbar.init 110 12 56 120 8 4 with was_drag := true }).run
        [TAction.ev (PEvent.motion 300 40), TAction.ev (PEvent.up 300 40),
         TAction.upd 1]).get_btn_at 250 40 = -1 := by
  have h := C10_drag_flag_persists
      [TAction.ev (PEvent.motion 300 40), TAction.ev (PEvent.up 300 40), TAction.upd 1]
      { ScrollToolbar.init 110 12 56 120 8 4 with was_drag := true }
      rfl (by intro mx my hm; simp at hm)
  exact ⟨h.1, h.2 250 40⟩

/-! ## C3 — toolbar tap/drag disambiguation at the screen level -/

/-- The particle playground screen after its first draw (`back_rect` set). -/
def ppReady : PPScreen := { PPScreen.init with back_rect := some back_button_rect }

/-- **C3 (code bug).** A zero-movement tap on the particle playground
toolbar — pointer-down at `(250, 40)` followed by pointer-up at `(250, 40)`,
directly over mode button 1 ("Rain"), with a fresh toolbar — selects
nothing: the pointer-down is consumed by the toolbar, and on pointer-up the
toolbar reports the gesture as not consumed (`was_drag = false`), so neither
of the screen's two selection branches runs.  `get_btn_at` confirms the
release position is over button 1, yet `mode` stays `0` instead of
becoming `1`. -/
theorem C3_tap_never_selects :
    ppReady.toolbar.get_btn_at 250 40 = 1 ∧
    (ppReady.runEvents [PEvent.down 250 40, PEvent.up 250 40]).mode = ppReady.mode ∧
    (ppReady.runEvents [PEvent.down 250 40, PEvent.up 250 40]).mode ≠ 1 := by
  have htb : ppReady.toolbar = ppToolbar0 := rfl
  have hbtn : ppToolbar0.get_btn_at 250 40 = 1 := by
    have hwd : ppToolbar0.was_drag = false := rfl
    have hy : ppToolbar0.y = 12 := rfl
    have hh : ppToolbar0.height = 56 := rfl
    have hc : ppToolbar0.btn_count = 4 := rfl
    have hbw : ppToolbar0.btn_width = 120 := rfl
    have hb0 : ppToolbar0.btn_rect_x 0 = 110 := by
      norm_num [ppToolbar0, ScrollToolbar.init, ScrollToolbar.btn_rect_x, int_py]
    have hb1 : ppToolbar0.btn_rect_x 1 = 238 := by
      norm_num [ppToolbar0, ScrollToolbar.init, ScrollToolbar.btn_rect_x, int_py]
    simp only [ScrollToolbar.get_btn_at, hwd, hy, hh, hc, hbw]
    norm_num [List.range_succ, List.find?, hb0, hb1]
  have hmode : (ppReady.runEvents [PEvent.down 250 40, PEvent.up 250 40]).mode = 0 := by
    norm_num [PPScreen.runEvents, PPScreen.handle_event, ScrollToolbar.handle_event,
      ppReady, PPScreen.init, ppToolbar0, ScrollToolbar.init]
  have hmode0 : ppReady.mode = 0 := rfl
  exact ⟨htb ▸ hbtn, hmode.trans hmode0.symm, by rw [hmode]; norm_num⟩

/-! ## C7 — snap-on-release in the shape sorter -/

/-- **C7.** Releasing a dragged shape within the snap threshold of its
target puts it exactly at the target with `placed = true`; releasing it at
or beyond the threshold leaves `placed` unchanged (dragged shapes are never
`placed`) and the position exactly where it was released — no snap-back to
the start position. -/
theorem C7_snap_on_release (sh : Shape) :
    ((sh.x - sh.target_x) ^ 2 + (sh.y - sh.target_y) ^ 2 < SNAP_DIST ^ 2 →
       (releaseShape sh).x = sh.target_x ∧ (releaseShape sh).y = sh.target_y ∧
       (releaseShape sh).placed = true) ∧
    (¬ ((sh.x - sh.target_x) ^ 2 + (sh.y - sh.target_y) ^ 2 < SNAP_DIST ^ 2) →
       (releaseShape sh).placed = sh.placed ∧ (releaseShape sh).x = sh.x ∧
       (releaseShape sh).y = sh.y ∧ (releaseShape sh).start_x = sh.start_x ∧
       (releaseShape sh).start_y = sh.start_y ∧
       (releaseShape sh).dragging = false) := by
  constructor
  · intro h
    unfold releaseShape
    dsimp only
    rw [if_pos h]
    exact ⟨rfl, rfl, rfl⟩
  · intro h
    unfold releaseShape
    dsimp only
    rw [if_neg h]
    exact ⟨rfl, rfl, rfl, rfl, rfl, rfl⟩

/-- Witness for C7: a shape released at `(400, 500)` with target
`(410, 520)` (distance² = 500 < 55² = 3025) snaps exactly to the target and
is placed. -/
theorem C7_snap_on_release_witness :
    (releaseShape ⟨400, 500, 100, 130, 410, 520, false, true, false, 0⟩).x = 410 ∧
    (releaseShape ⟨400, 500, 100, 130, 410, 520, false, true, false, 0⟩).y = 520 ∧
    (releaseShape ⟨400, 500, 100, 130, 410, 520, false, true, false, 0⟩).placed = true := by
  have h := (C7_snap_on_release ⟨400, 500, 100, 130, 410, 520, false, true, false, 0⟩).1
      (by norm_num [SNAP_DIST])
  exact h

/-! ## C8 — bounded-retry bubble placement -/

theorem spawn_go_mem (bubbles : List Bubble) (radius : ℤ) (cand : ℕ → ℤ × ℤ) :
    ∀ (fuel k : ℕ),
      ∃ j : ℕ, k ≤ j ∧ j ≤ k + fuel ∧
        spawn_go bubbles radius cand k fuel = cand j := by
  intro fuel
  induction fuel with
  | zero =>
    intro k
    exact ⟨k, le_refl _, by omega, rfl⟩
  | succ f ih =>
    intro k
    by_cases hb : bubbles.any
        (fun b => overlapsBubble radius (cand k).1 (cand k).2 b) = true
    · obtain ⟨j, h1, h2, h3⟩ := ih (k + 1)
      refine ⟨j, by omega, by omega, ?_⟩
      rw [spawn_go, if_pos hb]
      exact h3
    · refine ⟨k, le_refl _, by omega, ?_⟩
      rw [spawn_go, if_neg hb]

theorem spawn_go_all_reject (bubbles : List Bubble) (radius : ℤ) (cand : ℕ → ℤ × ℤ) :
    ∀ (fuel k : ℕ),
      (∀ j : ℕ, k ≤ j → j ≤ k + fuel →
         bubbles.any (fun b => overlapsBubble radius (cand j).1 (cand j).2 b) = true) →
      spawn_go bubbles radius cand k fuel = cand (k + fuel) := by
  intro fuel
  induction fuel with
  | zero => intro k _; rfl
  | succ f ih =>
    intro k hall
    have hb := hall k (le_refl _) (by omega)
    rw [spawn_go, if_pos hb]
    have h := ih (k + 1) (fun j hj1 hj2 => hall j (by omega) (by omega))
    rw [h]
    congr 1
    omega

/-- **C8.** `spawn_bubble`'s placement loop consults at most the fixed
retry budget of `RETRY_BUDGET = 50` sampled candidates and always
terminates with one of them; since every candidate is drawn from the
edge-margin region, so is the result; and when every candidate overlaps an
existing bubble, the last sampled candidate (index `RETRY_BUDGET - 1`) is
accepted anyway. -/
theorem C8_spawn_bounded (bubbles : List Bubble) (radius : ℤ) (cand : ℕ → ℤ × ℤ)
    (hin : ∀ k, k < RETRY_BUDGET → in_margin radius (cand k)) :
    (∃ k, k < RETRY_BUDGET ∧ spawn_bubble_pos bubbles radius cand = cand k) ∧
    in_margin radius (spawn_bubble_pos bubbles radius cand) ∧
    ((∀ k, k < RETRY_BUDGET →
        bubbles.any (fun b => overlapsBubble radius (cand k).1 (cand k).2 b) = true) →
      spawn_bubble_pos bubbles radius cand = cand (RETRY_BUDGET - 1)) := by
  obtain ⟨j, h1, h2, h3⟩ := spawn_go_mem bubbles radius cand (RETRY_BUDGET - 1) 0
  have hj : j < RETRY_BUDGET := by
    have : (0 : ℕ) + (RETRY_BUDGET - 1) = RETRY_BUDGET - 1 := by omega
    rw [this] at h2
    have hpos : 0 < RETRY_BUDGET := by norm_num [RETRY_BUDGET]
    omega
  refine ⟨⟨j, hj, h3⟩, ?_, ?_⟩
  · rw [show spawn_bubble_pos bubbles radius cand =
        spawn_go bubbles radius cand 0 (RETRY_BUDGET - 1) from rfl, h3]
    exact hin j hj
  · intro hall
    have h := spawn_go_all_reject bubbles radius cand (RETRY_BUDGET - 1) 0
        (fun i hi1 hi2 => hall i (by
          have hpos : 0 < RETRY_BUDGET := by norm_num [RETRY_BUDGET]
          omega))
    rw [show spawn_bubble_pos bubbles radius cand =
        spawn_go bubbles radius cand 0 (RETRY_BUDGET - 1) from rfl, h]
    norm_num

/-- Witness for C8: a single existing bubble of radius 1000 at the center
covers the whole 720×720 play area; with candidates `(40 + k, 40)` — all in
the margin region for `radius = 30` — every candidate is rejected and the
50th candidate `(89, 40)` is accepted, still inside the margin region. -/
theorem C8_spawn_bounded_witness :
    spawn_bubble_pos [⟨360, 360, 1000⟩] 30 (fun k => ((40 + k : ℤ), 40)) = (89, 40) ∧
    in_margin 30 ((89 : ℤ), (40 : ℤ)) := by
  have h := C8_spawn_bounded [⟨360, 360, 1000⟩] 30 (fun k => ((40 + k : ℤ), 40))
      (by decide)
  have he : spawn_bubble_pos [⟨360, 360, 1000⟩] 30 (fun k => ((40 + k : ℤ), 40)) =
      ((89 : ℤ), (40 : ℤ)) := (h.2.2 (by decide)).trans (by decide)
  exact ⟨he, he ▸ h.2.1⟩
